import Mathlib

/-!
Verification development for the `stactools-met-office-deterministic`
repository: a shallow embedding of the path-classification logic of
`src/stactools/met_office_deterministic/href.py` and of the asset-collection
logic of `src/stactools/met_office_deterministic/stac.py`, together with the
theme lookup tables of `constants.py`, and theorems about them.

Strings are modelled as Lean `String`; the regex matching of the two fixed
patterns (`PATH_REGEX` in `href.py` and `PATH_PATTERN` in `stac.py`) is
embedded as executable functions that implement the deterministic
backtracking semantics of those concrete Python regexes (greedy `.*` and
`.+`, lazy `.+?`, negated character classes, optional groups tried
present-first, `$` accepting one trailing newline, `.` not matching a
newline).
-/

/-- Split a list at the first occurrence of character `c`: returns
`(before, after)` with the occurrence removed, or `none` when `c` does not
occur.  Mirrors how a regex piece `[^c]+` followed by a literal `c` is
forced to stop at the first occurrence of `c`. -/
def splitAtFirst (c : Char) : List Char → Option (List Char × List Char)
  | [] => none
  | x :: xs =>
    if x = c then some ([], xs)
    else
      match splitAtFirst c xs with
      | some (a, b) => some (x :: a, b)
      | none => none

/-- All decompositions `s = before ++ [c] ++ after`, ordered by increasing
length of `before`. -/
def splitsAtChar (c : Char) : List Char → List (List Char × List Char)
  | [] => []
  | x :: xs =>
    let rest := (splitsAtChar c xs).map (fun ab => (x :: ab.1, ab.2))
    if x = c then ([], xs) :: rest else rest

/-- `True` when the list holds no newline character (Python `.` does not
match a newline). -/
def noNewline (l : List Char) : Bool := l.all (fun c => c ≠ '\n')

/-- Drop one trailing newline if present: Python `$` matches at the end of
the string or just before one final newline. -/
def stripTrailingNewline (l : List Char) : List Char :=
  if l.getLast? = some '\n' then l.dropLast else l

/-- Strip a literal `.nc` suffix, returning what precedes it. -/
def stripSuffixNc (l : List Char) : Option (List Char) :=
  match l.reverse with
  | 'c' :: 'n' :: '.' :: rest => some rest.reverse
  | _ => none

/-- The five captures of `PATH_REGEX` from `href.py`:
`^.*/(?P<collection>[^/]+)/(?P<reference_datetime>[^/]+)/(?P<valid_datetime>[^-]+)-(?P<forecast_horizon>[^-]+)-(?P<parameter>.+)\.nc$`. -/
structure RegexCaptures where
  collection : String
  reference_datetime : String
  valid_datetime : String
  forecast_horizon : String
  parameter : String
  deriving Repr, DecidableEq

/-- Match the part of `PATH_REGEX` after `.*/`, namely
`(?P<collection>[^/]+)/(?P<reference_datetime>[^/]+)/(?P<valid_datetime>[^-]+)-(?P<forecast_horizon>[^-]+)-(?P<parameter>.+)\.nc`
against the whole remaining input (the trailing newline, if any, has been
stripped by the caller).  Each `[^x]+` group is forced to end at the first
occurrence of its excluded character; the greedy `(?P<parameter>.+)`
followed by the literal `\.nc` at the end takes everything before the final
`.nc` and must be nonempty and newline-free. -/
def matchCRVHP (s : List Char) : Option RegexCaptures :=
  match splitAtFirst '/' s with
  | none => none
  | some (c, r1) =>
    if c = [] then none else
    match splitAtFirst '/' r1 with
    | none => none
    | some (r, r2) =>
      if r = [] then none else
      match splitAtFirst '-' r2 with
      | none => none
      | some (v, r3) =>
        if v = [] then none else
        match splitAtFirst '-' r3 with
        | none => none
        | some (hzn, r4) =>
          if hzn = [] then none else
          match stripSuffixNc r4 with
          | none => none
          | some p =>
            if p = [] then none
            else if noNewline p then
              some ⟨String.mk c, String.mk r, String.mk v,
                    String.mk hzn, String.mk p⟩
            else none

/-- `re.match(PATH_REGEX, s)` from `href.py`.  The greedy `.*` prefix tries
the longest newline-free prefix ending just before a `/` first, then
backtracks to earlier slashes. -/
def pathRegexMatch (s0 : List Char) : Option RegexCaptures :=
  let s := stripTrailingNewline s0
  (((splitsAtChar '/' s).reverse).filter (fun ab => noNewline ab.1)).findSome?
    (fun ab => matchCRVHP ab.2)

/-- `Model` enum from `constants.py` (values `"global"` and `"uk"`). -/
inductive Model where
  | global_
  | uk
  deriving Repr, DecidableEq

/-- `Theme` enum from `constants.py`. -/
inductive Theme where
  | height
  | pressure_level
  | near_surface
  | whole_atmosphere
  deriving Repr, DecidableEq

/-- The parameters of the `Theme.height` case of `Theme.from_parameter`
(`constants.py`). -/
def heightParameters : List String :=
  ["cloud_amount_on_height_levels",
   "temperature_on_height_levels",
   "wind_direction_on_height_levels",
   "wind_speed_on_height_levels"]

/-- The parameters of the `Theme.near_surface` case of
`Theme.from_parameter` (`constants.py`). -/
def nearSurfaceParameters : List String :=
  ["fog_fraction_at_screen_level",
   "visibility_at_screen_level",
   "pressure_at_mean_sea_level",
   "pressure_at_surface",
   "precipitation_rate",
   "precipitation_accumulation-PT01H",
   "precipitation_accumulation-PT03H",
   "precipitation_accumulation-PT06H",
   "rainfall_accumulation-PT01H",
   "rainfall_accumulation-PT03H",
   "rainfall_accumulation-PT06H",
   "rainfall_rate",
   "rainfall_rate_from_convection",
   "rainfall_rate_from_convection_max-PT01H",
   "rainfall_rate_from_convection_max-PT03H",
   "rainfall_rate_from_convection_max-PT06H",
   "radiation_flux_in_uv_downward_at_surface",
   "radiation_flux_in_longwave_downward_at_surface",
   "radiation_flux_in_shortwave_direct_downward_at_surface",
   "radiation_flux_in_shortwave_total_downward_at_surface",
   "radiation_flux_in_shortwave_diffuse_downward_at_surface",
   "snow_depth_water_equivalent",
   "snowfall_rate",
   "snowfall_accumulation-PT01H",
   "snowfall_accumulation-PT03H",
   "snowfall_rate_from_convection",
   "snowfall_rate_from_convection_mean-PT01H",
   "snowfall_rate_from_convection_mean-PT03H",
   "snowfall_rate_from_convection_mean-PT06H",
   "snowfall_rate_from_convection_max-PT01H",
   "snowfall_rate_from_convection_max-PT03H",
   "snowfall_rate_from_convection_max-PT06H",
   "hail_fall_rate",
   "hail_fall_accumulation-PT01H",
   "temperature_at_screen_level",
   "temperature_at_surface",
   "temperature_at_screen_level_max-PT01H",
   "temperature_at_screen_level_max-PT03H",
   "temperature_at_screen_level_max-PT06H",
   "temperature_at_screen_level_min-PT01H",
   "temperature_at_screen_level_min-PT03H",
   "temperature_at_screen_level_min-PT06H",
   "temperature_of_dew_point_at_screen_level",
   "wind_direction_at_10m",
   "wind_speed_at_10m",
   "wind_gust_at_10m",
   "wind_gust_at_10m_max-PT01H",
   "wind_gust_at_10m_max-PT03H",
   "wind_gust_at_10m_max-PT06H",
   "sensible_heat_flux_at_surface",
   "latent_heat_flux_at_surface_mean-PT01H",
   "latent_heat_flux_at_surface_mean-PT03H",
   "latent_heat_flux_at_surface_mean-PT06H",
   "relative_humidity_at_screen_level",
   "landsea_mask"]

/-- The parameters of the `Theme.pressure_level` case of
`Theme.from_parameter` (`constants.py`). -/
def pressureLevelParameters : List String :=
  ["height_ASL_on_pressure_levels",
   "temperature_on_pressure_levels",
   "wet_bulb_potential_temperature_on_pressure_levels",
   "wind_speed_on_pressure_levels",
   "wind_direction_on_pressure_levels",
   "wind_vertical_velocity_on_pressure_levels",
   "relative_humidity_on_pressure_levels"]

/-- The parameters of the `Theme.whole_atmosphere` case of
`Theme.from_parameter` (`constants.py`). -/
def wholeAtmosphereParameters : List String :=
  ["cloud_amount_of_total_cloud",
   "cloud_amount_of_high_cloud",
   "cloud_amount_of_medium_cloud",
   "cloud_amount_of_low_cloud",
   "cloud_amount_below_1000ft_ASL",
   "height_AGL_at_cloud_base_where_cloud_cover_2p5_oktas",
   "cloud_amount_of_total_convective_cloud",
   "pressure_at_tropopause",
   "lightning_flash_accumulation-PT01H",
   "temperature_at_tropopause",
   "CAPE_most_unstable_below_500hPa",
   "CAPE_surface",
   "CAPE_mixed_layer_lowest_500m",
   "CIN_surface",
   "CIN_mixed_layer_lowest_500m",
   "CIN_most_unstable_below_500hPa",
   "height_AGL_at_wet_bulb_freezing_level",
   "height_AGL_at_freezing_level"]

/-- `Theme.from_parameter` from `constants.py`: the `match` statement tries
its cases in source order (height, near-surface, pressure-level,
whole-atmosphere); an unknown parameter raises `ValueError`, modelled as
`none`. -/
def Theme.fromParameter (p : String) : Option Theme :=
  if heightParameters.contains p then some Theme.height
  else if nearSurfaceParameters.contains p then some Theme.near_surface
  else if pressureLevelParameters.contains p then some Theme.pressure_level
  else if wholeAtmosphereParameters.contains p then some Theme.whole_atmosphere
  else none

/-- The three distinct `ValueError`s that `Href.parse` can raise:
`"Invalid file name: ..."`, `"Invalid collection: ..."` and (from
`Theme.from_parameter`) `"Unknown parameter: ..."`. -/
inductive ParseError where
  | invalidFileName
  | invalidCollection
  | unknownParameter
  deriving Repr, DecidableEq

/-- The `Href` dataclass from `href.py`. -/
structure Href where
  href : String
  model : Model
  theme : Theme
  parameter : String
  reference_datetime : String
  valid_datetime : String
  forecast_horizon : String
  deriving Repr, DecidableEq

/-- The collection-literal-to-model table inside `Href.parse`
(`href.py` lines 33-40); an unrecognized literal raises
`ValueError("Invalid collection: ...")`. -/
def resolveModel (collection : String) : Except ParseError Model :=
  if collection = "global-deterministic-10km" then Except.ok Model.global_
  else if collection = "uk-deterministic-2km" then Except.ok Model.uk
  else Except.error ParseError.invalidCollection

/-- Theme resolution inside `Href.parse` when no theme hint is given. -/
def resolveTheme (parameter : String) : Except ParseError Theme :=
  match Theme.fromParameter parameter with
  | some t => Except.ok t
  | none => Except.error ParseError.unknownParameter

/-- The body of `Href.parse` after a successful `PATH_REGEX` match. -/
def parseCaps (model? : Option Model) (theme? : Option Theme) (href : String)
    (caps : RegexCaptures) : Except ParseError Href :=
  match (match model? with
         | some m => Except.ok m
         | none => resolveModel caps.collection) with
  | Except.error e => Except.error e
  | Except.ok model =>
    match (match theme? with
           | some t => Except.ok t
           | none => resolveTheme caps.parameter) with
    | Except.error e => Except.error e
    | Except.ok theme =>
      Except.ok
        { href := href
          model := model
          theme := theme
          parameter := caps.parameter
          reference_datetime := caps.reference_datetime
          valid_datetime := caps.valid_datetime
          forecast_horizon := caps.forecast_horizon }

/-- `Href.parse` from `href.py`: match `PATH_REGEX` (no match raises
`ValueError("Invalid file name: ...")`), resolve the model from the
collection capture unless a model hint is given, resolve the theme from the
parameter capture unless a theme hint is given. -/
def Href.parse (model? : Option Model) (theme? : Option Theme)
    (href : String) : Except ParseError Href :=
  match pathRegexMatch href.data with
  | none => Except.error ParseError.invalidFileName
  | some caps => parseCaps model? theme? href caps

/-- The `item_id` property of `Href`. -/
def Href.item_id (h : Href) : String :=
  h.reference_datetime ++ "-" ++ h.valid_datetime

/-- Python `str.split("-")` for the single-character separator `-`:
`""` gives `[""]`, separators at the ends give empty parts. -/
def splitOnDash : List Char → List (List Char)
  | [] => [[]]
  | c :: cs =>
    let rest := splitOnDash cs
    if c = '-' then [] :: rest
    else
      match rest with
      | r :: rs => (c :: r) :: rs
      | [] => [[c]]

/-- The `duration` property of `Href`.  The source splits the parameter on
`"-"`; with exactly two parts it asserts the second starts with `"PT"` and
returns it, otherwise it returns `None`.  The outer `Option` models the
assertion: `none` is an `AssertionError`, `some d` is a normal return of
`d`. -/
def Href.duration (h : Href) : Option (Option String) :=
  match splitOnDash h.parameter.data with
  | [_, p2] =>
    match p2 with
    | 'P' :: 'T' :: _ => some (some (String.mk p2))
    | _ => none
  | _ => some none

/-- `Href.__str__` from `href.py`: returns the stored href unchanged. -/
def Href.toString (h : Href) : String := h.href

/-- The character class `[\dHM]` of the duration group of `PATH_PATTERN`
(`stac.py`). -/
def isDurChar (c : Char) : Bool := c.isDigit || c = 'H' || c = 'M'

/-- For a fixed split of the trailing segment, try to match the rest of
`PATH_PATTERN` after the lazy variable group:
first `-(?P<duration>PT[\dHM]+)\.nc` (the optional group is preferred
present), then `\.nc` alone.  Returns `some (some d)` when the duration
group matched with capture `d` (which includes the literal `PT`),
`some none` when the rest is exactly `.nc`, `none` when the variable group
must grow. -/
def matchDurTail (u : List Char) : Option (Option (List Char)) :=
  match u with
  | '-' :: 'P' :: 'T' :: rest =>
    let ds := rest.takeWhile isDurChar
    let rest2 := rest.dropWhile isDurChar
    if ds ≠ [] ∧ rest2 = ['.', 'n', 'c'] then some (some ('P' :: 'T' :: ds))
    else none
  | ['.', 'n', 'c'] => some none
  | _ => none

/-- The lazy variable group `(?P<variable>.+?)` of `PATH_PATTERN`: grow the
variable one character at a time (shortest first, nonempty, `.` does not
match a newline), at each length trying `matchDurTail` on the remainder. -/
def varDurGo (v : List Char) : List Char → Option (List Char × Option (List Char))
  | [] => none
  | c :: us =>
    if c = '\n' then none
    else
      let v' := v ++ [c]
      match matchDurTail us with
      | some d => some (v', d)
      | none => varDurGo v' us

/-- The captures of `PATH_PATTERN` from `stac.py`:
`^(?:(?P<protocol>[^:]+)://(?P<bucket>[^/]+)/)?(?P<collection>[^/]+)/(?P<reference_time>[^/]+)/(?P<valid_time>[^-]+)-(?P<forecast_horizon>[^-]+)-(?P<variable>.+?)(?:-(?P<duration>PT[\dHM]+))?\.nc$`.
The regex group named `variable` is called `variableName` here because
`variable` is a Lean keyword. -/
structure PathMatch where
  protocol : Option String
  bucket : Option String
  collection : String
  reference_time : String
  valid_time : String
  forecast_horizon : String
  variableName : String
  duration : Option String
  deriving Repr, DecidableEq

/-- The part of `PATH_PATTERN` after the optional `protocol://bucket/`
group (the trailing newline, if any, has been stripped by the caller):
`(?P<collection>[^/]+)/(?P<reference_time>[^/]+)/(?P<valid_time>[^-]+)-(?P<forecast_horizon>[^-]+)-(?P<variable>.+?)(?:-(?P<duration>PT[\dHM]+))?\.nc`. -/
def matchAfterBucket (s : List Char) :
    Option (String × String × String × String × String × Option String) :=
  match splitAtFirst '/' s with
  | none => none
  | some (c, r1) =>
    if c = [] then none else
    match splitAtFirst '/' r1 with
    | none => none
    | some (r, r2) =>
      if r = [] then none else
      match splitAtFirst '-' r2 with
      | none => none
      | some (v, r3) =>
        if v = [] then none else
        match splitAtFirst '-' r3 with
        | none => none
        | some (hzn, r4) =>
          if hzn = [] then none else
          match varDurGo [] r4 with
          | none => none
          | some (vr, d) =>
            some (String.mk c, String.mk r, String.mk v, String.mk hzn,
                  String.mk vr, d.map String.mk)

/-- `re.match(PATH_PATTERN, s)` from `stac.py`.  The optional
`protocol://bucket/` group is tried present first (each of its pieces is
forced: the protocol cannot contain `:` and must be followed by the literal
`://`, the bucket cannot contain `/`); if the remainder then fails, the
whole group is skipped and matching restarts at the beginning of the
string. -/
def pathPatternMatch (s0 : List Char) : Option PathMatch :=
  let s := stripTrailingNewline s0
  let withProtocol : Option PathMatch :=
    match splitAtFirst ':' s with
    | none => none
    | some (proto, r1) =>
      if proto = [] then none else
      match r1 with
      | '/' :: '/' :: r2 =>
        match splitAtFirst '/' r2 with
        | none => none
        | some (bucket, r3) =>
          if bucket = [] then none else
          match matchAfterBucket r3 with
          | none => none
          | some (c, r, v, hzn, vr, d) =>
            some ⟨some (String.mk proto), some (String.mk bucket),
                  c, r, v, hzn, vr, d⟩
      | _ => none
  match withProtocol with
  | some m => some m
  | none =>
    match matchAfterBucket s with
    | none => none
    | some (c, r, v, hzn, vr, d) => some ⟨none, none, c, r, v, hzn, vr, d⟩

/-- One element of the listing returned by `obstore.list` in
`_collect_assets` (`stac.py`): a key and its last-modified stamp.  The
stamp's `isoformat()` rendering is external library behaviour, so it is
modelled as an opaque string. -/
structure ListResult where
  path : String
  last_modified : String
  deriving Repr, DecidableEq

/-- The `pystac.Asset` built by `_collect_assets` (`stac.py` lines
150-157), with its `extra_fields` (`forecast:variable`, `updated` and the
optional `forecast:duration`) flattened into named fields. -/
structure StacAsset where
  href : String
  forecast_variable : String
  updated : String
  duration : Option String
  description : String
  title : String
  roles : List String
  media_type : String
  deriving Repr, DecidableEq

/-- The per-key body of the listing loop of `_collect_assets` (`stac.py`
lines 124-157): `none` when the key is skipped (pattern mismatch,
valid-time filter, or variable not in the collection's `variables` table),
otherwise the `(item_id, variable, Asset)` triple that is inserted into
the grouped assets map.  `variables` is the collection's
variable-to-description table; the Python skip condition
`if valid_time and parsed.group("valid_time") != valid_time` treats an
empty `valid_time` string as falsy. -/
def parsedEntry (varTable : List (String × String)) (protocol bucket : String)
    (validTime? : Option String) (r : ListResult) :
    Option (String × String × StacAsset) :=
  match pathPatternMatch r.path.data with
  | none => none
  | some m =>
    if (match validTime? with
        | some vt => vt != "" && m.valid_time != vt
        | none => false) then none
    else
      match varTable.lookup m.variableName with
      | none => none
      | some desc =>
        some (m.reference_time ++ "-" ++ m.valid_time, m.variableName,
          { href := protocol ++ "://" ++ bucket ++ "/" ++ r.path
            forecast_variable := m.variableName
            updated := r.last_modified
            duration := m.duration
            description := desc
            title := String.mk (m.variableName.data.map
              (fun c => if c = '_' then ' ' else c))
            roles := ["data"]
            media_type := "application/netcdf" })

/-- The grouped assets of `_collect_assets`:
`defaultdict[item_id, dict[variable, Asset]]`, modelled as
insertion-ordered association lists at both levels. -/
abbrev AssetsMap := List (String × List (String × StacAsset))

/-- Python dict assignment `inner[variable] = a`: replace in place when the
key exists, append otherwise. -/
def insertInner (v : String) (a : StacAsset) :
    List (String × StacAsset) → List (String × StacAsset)
  | [] => [(v, a)]
  | (k, b) :: rest =>
    if k = v then (k, a) :: rest else (k, b) :: insertInner v a rest

/-- `assets[item_id][variable] = a` on the defaultdict: a fresh `item_id`
entry is appended at the end, an existing one is updated in place. -/
def insertAsset (i v : String) (a : StacAsset) : AssetsMap → AssetsMap
  | [] => [(i, [(v, a)])]
  | (k, inner) :: rest =>
    if k = i then (k, insertInner v a inner) :: rest
    else (k, inner) :: insertAsset i v a rest

/-- One iteration of the listing loop of `_collect_assets`: skipped keys
leave the map unchanged. -/
def collectStep (varTable : List (String × String)) (protocol bucket : String)
    (validTime? : Option String) (acc : AssetsMap) (r : ListResult) : AssetsMap :=
  match parsedEntry varTable protocol bucket validTime? r with
  | none => acc
  | some (i, v, a) => insertAsset i v a acc

/-- The error raised by `_collect_assets` when the final map is empty:
`ValueError("No assets found for prefix ...")`. -/
inductive CollectError where
  | noAssets
  deriving Repr, DecidableEq

/-- `_collect_assets` from `stac.py`, with the external `obstore.list`
stream materialized as the `listing` argument (the `object_store` and
`key_prefix` arguments only drive that external listing and the error
message, so they are not part of the embedding). -/
def collectAssets (varTable : List (String × String)) (protocol bucket : String)
    (validTime? : Option String) (listing : List ListResult) :
    Except CollectError AssetsMap :=
  if listing.foldl (collectStep varTable protocol bucket validTime?) [] = [] then
    Except.error CollectError.noAssets
  else Except.ok (listing.foldl (collectStep varTable protocol bucket validTime?) [])

/-- Look up one asset in the grouped map by item id and variable key. -/
def lookupAsset (m : AssetsMap) (i v : String) : Option StacAsset :=
  match m.lookup i with
  | none => none
  | some inner => inner.lookup v

/-- The four theme-membership sets of `Theme.from_parameter`, in source
order. -/
def themeMembershipLists : List (List String) :=
  [heightParameters, nearSurfaceParameters, pressureLevelParameters,
   wholeAtmosphereParameters]

/-- All known variable names: the concatenation of the four
theme-membership sets. -/
def allKnownParameters : List String :=
  heightParameters ++ nearSurfaceParameters ++ pressureLevelParameters ++
    wholeAtmosphereParameters

/-- Every per-item asset dict of the map has duplicate-free variable
keys. -/
def innerKeysNodup (m : AssetsMap) : Prop :=
  ∀ e ∈ m, ((e.2).map Prod.fst).Nodup

/-- If `PATH_REGEX` matches, `Href.parse` proceeds with the captures. -/
theorem href_parse_caps (m? : Option Model) (t? : Option Theme) (p : String)
    (caps : RegexCaptures) (hc : pathRegexMatch p.data = some caps) :
    Href.parse m? t? p = parseCaps m? t? p caps := by
  unfold Href.parse
  rw [hc]

/-- C1 (counterexample): on the bare key
`global-deterministic-10km/20250614T0000Z/20250614T0100Z-PT0001H00M-temperature_at_screen_level.nc`,
without a scheme/bucket prefix, `Href.parse` does not succeed: `PATH_REGEX`
begins with `.*/` and therefore requires some prefix segment before the
collection, so the claim's "the scheme/bucket prefix being optional" fails
and parsing raises `ValueError("Invalid file name: ...")`. -/
theorem c1_counterexample :
    Href.parse none none
      "global-deterministic-10km/20250614T0000Z/20250614T0100Z-PT0001H00M-temperature_at_screen_level.nc"
      = Except.error ParseError.invalidFileName := rfl

/-- C1 (amended): with the scheme/bucket prefix present, classifying
`s3://met-office-atmospheric-model-data/global-deterministic-10km/20250614T0000Z/20250614T0100Z-PT0001H00M-temperature_at_screen_level.nc`
succeeds and returns model Global, theme NearSurface, raw variable
(parameter) `temperature_at_screen_level`, duration absent, and item id
`20250614T0000Z-20250614T0100Z`. -/
theorem c1_classify_with_scheme :
    (Href.parse none none
        "s3://met-office-atmospheric-model-data/global-deterministic-10km/20250614T0000Z/20250614T0100Z-PT0001H00M-temperature_at_screen_level.nc").map
        (fun h => (h.model, h.theme, h.parameter, Href.duration h, Href.item_id h))
      = Except.ok
        (Model.global_, Theme.near_surface, "temperature_at_screen_level",
         some none, "20250614T0000Z-20250614T0100Z") := rfl

/-- C2: whenever `Href.parse` succeeds, the parsed `item_id` is the
`reference_datetime` capture of `PATH_REGEX`, a `-`, and the
`valid_datetime` capture. -/
theorem c2_item_id (m? : Option Model) (t? : Option Theme) (p : String)
    (caps : RegexCaptures) (h : Href)
    (hc : pathRegexMatch p.data = some caps)
    (hp : Href.parse m? t? p = Except.ok h) :
    Href.item_id h = caps.reference_datetime ++ "-" ++ caps.valid_datetime := by
  rw [href_parse_caps m? t? p caps hc] at hp
  unfold parseCaps at hp
  split at hp
  · simp at hp
  · split at hp
    · simp at hp
    · cases hp
      rfl

/-- C2 (witness): `c2_item_id` applied to a concrete successfully
classified key. -/
theorem c2_witness :
    ∃ (caps : RegexCaptures) (h : Href),
      pathRegexMatch
        "s3://met-office-atmospheric-model-data/global-deterministic-10km/20250614T0000Z/20250614T0100Z-PT0001H00M-temperature_at_screen_level.nc".data
        = some caps ∧
      Href.parse none none
        "s3://met-office-atmospheric-model-data/global-deterministic-10km/20250614T0000Z/20250614T0100Z-PT0001H00M-temperature_at_screen_level.nc"
        = Except.ok h ∧
      Href.item_id h = caps.reference_datetime ++ "-" ++ caps.valid_datetime := by
  have hc : pathRegexMatch
      "s3://met-office-atmospheric-model-data/global-deterministic-10km/20250614T0000Z/20250614T0100Z-PT0001H00M-temperature_at_screen_level.nc".data
      = some ⟨"global-deterministic-10km", "20250614T0000Z", "20250614T0100Z",
              "PT0001H00M", "temperature_at_screen_level"⟩ := rfl
  have hp : Href.parse none none
      "s3://met-office-atmospheric-model-data/global-deterministic-10km/20250614T0000Z/20250614T0100Z-PT0001H00M-temperature_at_screen_level.nc"
      = Except.ok
        ⟨"s3://met-office-atmospheric-model-data/global-deterministic-10km/20250614T0000Z/20250614T0100Z-PT0001H00M-temperature_at_screen_level.nc",
         Model.global_, Theme.near_surface, "temperature_at_screen_level",
         "20250614T0000Z", "20250614T0100Z", "PT0001H00M"⟩ := rfl
  exact ⟨_, _, hc, hp, c2_item_id none none _ _ _ hc hp⟩

/-- C3: the four theme-membership sets are pairwise disjoint — every known
variable name appears in exactly one of the four sets. -/
theorem c3_theme_sets_disjoint :
    (allKnownParameters.all fun p =>
      themeMembershipLists.countP (fun l => l.contains p) == 1) = true ∧
    List.Pairwise (fun l1 l2 => ∀ p ∈ l1, p ∉ l2) themeMembershipLists := by
  constructor
  · decide
  · decide

/-- C4: on a key whose trailing segment carries one `-PT...` suffix,
`PATH_PATTERN` captures the duration separately and strips it from the
variable capture (`variable="precipitation_accumulation"`,
`duration="PT01H"`); and the `Href.duration` accessor of the same parsed
key extracts `PT01H` from its parameter. -/
theorem c4_duration_split :
    (pathPatternMatch
        "s3://met-office-atmospheric-model-data/global-deterministic-10km/20250614T0000Z/20250614T0100Z-PT0001H00M-precipitation_accumulation-PT01H.nc".data).map
        (fun pm => (pm.variableName, pm.duration))
      = some ("precipitation_accumulation", some "PT01H") ∧
    (Href.parse none none
        "s3://met-office-atmospheric-model-data/global-deterministic-10km/20250614T0000Z/20250614T0100Z-PT0001H00M-precipitation_accumulation-PT01H.nc").map
        (fun h => (h.parameter, Href.duration h))
      = Except.ok ("precipitation_accumulation-PT01H", some (some "PT01H")) :=
  ⟨rfl, rfl⟩

/-- C6: on any path that matches `PATH_REGEX`, when no model hint is given
and the collection capture is neither `global-deterministic-10km` nor
`uk-deterministic-2km`, `Href.parse` fails with
`ValueError("Invalid collection: ...")` (regardless of any theme hint). -/
theorem c6_unknown_collection (p : String) (caps : RegexCaptures)
    (t? : Option Theme)
    (hc : pathRegexMatch p.data = some caps)
    (h1 : caps.collection ≠ "global-deterministic-10km")
    (h2 : caps.collection ≠ "uk-deterministic-2km") :
    Href.parse none t? p = Except.error ParseError.invalidCollection := by
  rw [href_parse_caps none t? p caps hc]
  unfold parseCaps resolveModel
  simp [h1, h2]

/-- C6 (witness): `c6_unknown_collection` applied to a structurally valid
key with the unknown collection segment `foo-bar`. -/
theorem c6_witness :
    ∃ caps : RegexCaptures,
      pathRegexMatch "x/foo-bar/20250614T0000Z/a-b-c.nc".data = some caps ∧
      caps.collection = "foo-bar" ∧
      Href.parse none none "x/foo-bar/20250614T0000Z/a-b-c.nc"
        = Except.error ParseError.invalidCollection := by
  have hc : pathRegexMatch "x/foo-bar/20250614T0000Z/a-b-c.nc".data
      = some ⟨"foo-bar", "20250614T0000Z", "a", "b", "c"⟩ := rfl
  exact ⟨_, hc, rfl,
    c6_unknown_collection _ _ none hc (by decide) (by decide)⟩

/-- C5 (counterexample): `_collect_assets` has a partial-success mode.  On
a listing holding one key that does not classify (`badkey`) and one key
that does, the operation succeeds and silently drops the unparseable key
from the result, contradicting "either every listed key in the scope
classifies successfully, or the whole operation fails". -/
theorem c5_counterexample :
    pathPatternMatch "badkey".data = none ∧
    collectAssets [("temperature_at_screen_level", "desc")] "s3" "bucket" none
      [⟨"badkey", "t0"⟩,
       ⟨"global-deterministic-10km/20250614T0000Z/20250614T0100Z-PT0001H00M-temperature_at_screen_level.nc",
        "t1"⟩]
      = Except.ok
        [("20250614T0000Z-20250614T0100Z",
          [("temperature_at_screen_level",
            { href := "s3://bucket/global-deterministic-10km/20250614T0000Z/20250614T0100Z-PT0001H00M-temperature_at_screen_level.nc"
              forecast_variable := "temperature_at_screen_level"
              updated := "t1"
              duration := none
              description := "desc"
              title := "temperature at screen level"
              roles := ["data"]
              media_type := "application/netcdf" })])] :=
  ⟨rfl, rfl⟩

/-- C5 (amended): a listed key that does not match `PATH_PATTERN` is
skipped (after a log message) and leaves the collected result unchanged;
the operation does not fail because of it. -/
theorem c5_unparseable_keys_skipped (varTable : List (String × String))
    (protocol bucket : String) (validTime? : Option String)
    (listing : List ListResult) (r : ListResult)
    (h : pathPatternMatch r.path.data = none) :
    collectAssets varTable protocol bucket validTime? (listing ++ [r])
      = collectAssets varTable protocol bucket validTime? listing := by
  have hstep : ∀ acc, collectStep varTable protocol bucket validTime? acc r = acc := by
    intro acc
    unfold collectStep parsedEntry
    rw [h]
  unfold collectAssets
  rw [List.foldl_append, List.foldl_cons, List.foldl_nil, hstep]

/-- C5 (witness): `c5_unparseable_keys_skipped` applied to a concrete
listing ending in an unparseable key. -/
theorem c5_witness :
    collectAssets [("temperature_at_screen_level", "desc")] "s3" "bucket" none
      ([⟨"global-deterministic-10km/20250614T0000Z/20250614T0100Z-PT0001H00M-temperature_at_screen_level.nc",
         "t1"⟩] ++ [⟨"badkey2", "t2"⟩])
      = collectAssets [("temperature_at_screen_level", "desc")] "s3" "bucket" none
        [⟨"global-deterministic-10km/20250614T0000Z/20250614T0100Z-PT0001H00M-temperature_at_screen_level.nc",
          "t1"⟩] :=
  c5_unparseable_keys_skipped _ _ _ _ _ _ rfl

/-- Keys whose per-key processing yields nothing leave the fold
unchanged. -/
theorem collect_fold_skip (varTable : List (String × String))
    (protocol bucket : String) (validTime? : Option String) :
    ∀ (l : List ListResult) (acc : AssetsMap),
      (∀ r ∈ l, parsedEntry varTable protocol bucket validTime? r = none) →
      l.foldl (collectStep varTable protocol bucket validTime?) acc = acc := by
  intro l
  induction l with
  | nil => intro acc _; rfl
  | cons r rest ih =>
    intro acc h
    rw [List.foldl_cons]
    have hr : collectStep varTable protocol bucket validTime? acc r = acc := by
      unfold collectStep
      rw [h r (List.mem_cons_self r rest)]
    rw [hr]
    exact ih acc (fun x hx => h x (List.mem_cons_of_mem r hx))

/-- C8: when no listed key yields a usable descriptor, `_collect_assets`
fails with `ValueError("No assets found ...")`; and in general it never
returns an empty grouped-assets map. -/
theorem c8_no_assets_error (varTable : List (String × String))
    (protocol bucket : String) (validTime? : Option String)
    (listing : List ListResult)
    (h : ∀ r ∈ listing, parsedEntry varTable protocol bucket validTime? r = none) :
    collectAssets varTable protocol bucket validTime? listing
      = Except.error CollectError.noAssets ∧
    ∀ listing' : List ListResult,
      collectAssets varTable protocol bucket validTime? listing'
        ≠ Except.ok [] := by
  constructor
  · unfold collectAssets
    rw [collect_fold_skip varTable protocol bucket validTime? listing [] h]
    rfl
  · intro listing' hok
    unfold collectAssets at hok
    split at hok
    · simp at hok
    · rename_i hne
      simp only [Except.ok.injEq] at hok
      exact hne hok

/-- C8 (witness): `c8_no_assets_error` applied to a concrete listing with
no usable key. -/
theorem c8_witness :
    collectAssets [("temperature_at_screen_level", "desc")] "s3" "bucket" none
      [⟨"badkey3", "t0"⟩] = Except.error CollectError.noAssets ∧
    ∀ listing' : List ListResult,
      collectAssets [("temperature_at_screen_level", "desc")] "s3" "bucket" none
        listing' ≠ Except.ok [] :=
  c8_no_assets_error _ _ _ _ _ (by decide)

/-- Rewrite: updating an inner dict whose head has the inserted key. -/
theorem insertInner_cons_eq (v : String) (a b : StacAsset)
    (rest : List (String × StacAsset)) :
    insertInner v a ((v, b) :: rest) = (v, a) :: rest := by
  simp [insertInner]

/-- Rewrite: updating an inner dict whose head has a different key. -/
theorem insertInner_cons_ne (v : String) (a : StacAsset) (k : String)
    (b : StacAsset) (rest : List (String × StacAsset)) (h : k ≠ v) :
    insertInner v a ((k, b) :: rest) = (k, b) :: insertInner v a rest := by
  simp [insertInner, h]

/-- Updating an inner dict at key `v` makes `v` look up the new asset. -/
theorem lookup_insertInner_self (v : String) (a : StacAsset)
    (inner : List (String × StacAsset)) :
    (insertInner v a inner).lookup v = some a := by
  induction inner with
  | nil => simp [insertInner, List.lookup]
  | cons kv rest ih =>
    obtain ⟨k, b⟩ := kv
    by_cases hk : k = v
    · subst hk
      simp [insertInner_cons_eq, List.lookup]
    · have hvk : (v == k) = false := by simp [Ne.symm hk]
      rw [insertInner_cons_ne v a k b rest hk]
      simp only [List.lookup, hvk]
      exact ih

/-- Inserting at `(i, v)` makes `(i, v)` look up the new asset. -/
theorem lookupAsset_insertAsset_self (i v : String) (a : StacAsset)
    (m : AssetsMap) :
    lookupAsset (insertAsset i v a m) i v = some a := by
  induction m with
  | nil => simp [insertAsset, lookupAsset, List.lookup]
  | cons e rest ih =>
    obtain ⟨k, inner⟩ := e
    by_cases hk : k = i
    · subst hk
      simp [insertAsset, lookupAsset, List.lookup, lookup_insertInner_self]
    · have hik : (i == k) = false := by simp [Ne.symm hk]
      simp only [insertAsset, if_neg hk, lookupAsset, List.lookup, hik] at ih ⊢
      exact ih

/-- Every key of the updated inner dict is the inserted key or an original
key. -/
theorem insertInner_keys_mem (v : String) (a : StacAsset)
    (inner : List (String × StacAsset)) :
    ∀ k ∈ (insertInner v a inner).map Prod.fst,
      k = v ∨ k ∈ inner.map Prod.fst := by
  induction inner with
  | nil => simp [insertInner]
  | cons e rest ih =>
    obtain ⟨k0, b⟩ := e
    by_cases hk : k0 = v
    · subst hk
      rw [insertInner_cons_eq]
      simp only [List.map_cons]
      intro k hkm
      rcases List.mem_cons.mp hkm with h | h
      · exact Or.inr (List.mem_cons.mpr (Or.inl h))
      · exact Or.inr (List.mem_cons.mpr (Or.inr h))
    · rw [insertInner_cons_ne v a k0 b rest hk]
      simp only [List.map_cons]
      intro k hkm
      rcases List.mem_cons.mp hkm with h | h
      · exact Or.inr (List.mem_cons.mpr (Or.inl h))
      · rcases ih k h with h' | h'
        · exact Or.inl h'
        · exact Or.inr (List.mem_cons.mpr (Or.inr h'))

/-- Dict update keeps the inner keys duplicate-free. -/
theorem insertInner_keys_nodup (v : String) (a : StacAsset)
    (inner : List (String × StacAsset))
    (h : (inner.map Prod.fst).Nodup) :
    ((insertInner v a inner).map Prod.fst).Nodup := by
  induction inner with
  | nil => simp [insertInner]
  | cons e rest ih =>
    obtain ⟨k0, b⟩ := e
    simp only [List.map_cons, List.nodup_cons] at h
    obtain ⟨hk0, hrest⟩ := h
    by_cases hk : k0 = v
    · subst hk
      rw [insertInner_cons_eq]
      simp only [List.map_cons, List.nodup_cons]
      exact ⟨hk0, hrest⟩
    · rw [insertInner_cons_ne v a k0 b rest hk]
      simp only [List.map_cons, List.nodup_cons]
      refine ⟨?_, ih hrest⟩
      intro hmem
      rcases insertInner_keys_mem v a rest k0 hmem with h' | h'
      · exact hk h'
      · exact hk0 h'

/-- Inserting an asset preserves duplicate-free variable keys. -/
theorem insertAsset_innerKeysNodup (i v : String) (a : StacAsset)
    (m : AssetsMap) (h : innerKeysNodup m) :
    innerKeysNodup (insertAsset i v a m) := by
  induction m with
  | nil =>
    intro e he
    simp only [insertAsset, List.mem_singleton] at he
    subst he
    simp
  | cons e0 rest ih =>
    obtain ⟨k, inner⟩ := e0
    by_cases hk : k = i
    · subst hk
      intro e he
      rw [show insertAsset k v a ((k, inner) :: rest)
            = (k, insertInner v a inner) :: rest from by simp [insertAsset]] at he
      rcases List.mem_cons.mp he with h' | h'
      · subst h'
        exact insertInner_keys_nodup v a inner (h _ (List.mem_cons_self _ _))
      · exact h _ (List.mem_cons_of_mem _ h')
    · intro e he
      simp only [insertAsset, if_neg hk] at he
      rcases List.mem_cons.mp he with h' | h'
      · subst h'
        exact h _ (List.mem_cons_self _ _)
      · exact ih (fun x hx => h x (List.mem_cons_of_mem _ hx)) _ h'

/-- The listing fold preserves duplicate-free variable keys. -/
theorem collect_fold_innerKeysNodup (varTable : List (String × String))
    (protocol bucket : String) (validTime? : Option String) :
    ∀ (l : List ListResult) (acc : AssetsMap), innerKeysNodup acc →
      innerKeysNodup
        (l.foldl (collectStep varTable protocol bucket validTime?) acc) := by
  intro l
  induction l with
  | nil => intro acc h; exact h
  | cons r rest ih =>
    intro acc h
    rw [List.foldl_cons]
    apply ih
    unfold collectStep
    split
    · exact h
    · exact insertAsset_innerKeysNodup _ _ _ _ h

/-- C7: when the last listed key yields the `(item_id, variable)` pair
`(i, v)` with asset `a`, the collected map holds exactly `a` under that
pair — any earlier asset under the same pair has been silently replaced —
and every item's asset dict has duplicate-free variable keys, so the
emitted item contains exactly one asset under that variable key. -/
theorem c7_last_write_wins (varTable : List (String × String))
    (protocol bucket : String) (validTime? : Option String)
    (xs : List ListResult) (r : ListResult) (i v : String) (a : StacAsset)
    (hr : parsedEntry varTable protocol bucket validTime? r = some (i, v, a)) :
    lookupAsset
      ((xs ++ [r]).foldl (collectStep varTable protocol bucket validTime?) []) i v
      = some a ∧
    innerKeysNodup
      ((xs ++ [r]).foldl (collectStep varTable protocol bucket validTime?) []) := by
  constructor
  · rw [List.foldl_append, List.foldl_cons, List.foldl_nil]
    have hstep : collectStep varTable protocol bucket validTime?
        (xs.foldl (collectStep varTable protocol bucket validTime?) []) r
        = insertAsset i v a
          (xs.foldl (collectStep varTable protocol bucket validTime?) []) := by
      unfold collectStep
      rw [hr]
    rw [hstep]
    exact lookupAsset_insertAsset_self i v a _
  · exact collect_fold_innerKeysNodup varTable protocol bucket validTime?
      (xs ++ [r]) [] (by intro e he; simp at he)

/-- C7 (witness): `c7_last_write_wins` applied to two listed keys that map
to the same `(item_id, variable)` pair; the kept asset carries the second
key's `last_modified` stamp `t2`. -/
theorem c7_witness :
    ∃ (i v : String) (a : StacAsset),
      parsedEntry [("temperature_at_screen_level", "desc")] "s3" "bucket" none
        ⟨"global-deterministic-10km/20250614T0000Z/20250614T0100Z-PT0001H00M-temperature_at_screen_level.nc",
         "t2"⟩ = some (i, v, a) ∧
      a.updated = "t2" ∧
      lookupAsset
        (([(⟨"global-deterministic-10km/20250614T0000Z/20250614T0100Z-PT0001H00M-temperature_at_screen_level.nc",
             "t1"⟩ : ListResult)] ++
          [(⟨"global-deterministic-10km/20250614T0000Z/20250614T0100Z-PT0001H00M-temperature_at_screen_level.nc",
             "t2"⟩ : ListResult)]).foldl
          (collectStep [("temperature_at_screen_level", "desc")] "s3" "bucket" none)
          []) i v = some a ∧
      innerKeysNodup
        (([(⟨"global-deterministic-10km/20250614T0000Z/20250614T0100Z-PT0001H00M-temperature_at_screen_level.nc",
             "t1"⟩ : ListResult)] ++
          [(⟨"global-deterministic-10km/20250614T0000Z/20250614T0100Z-PT0001H00M-temperature_at_screen_level.nc",
             "t2"⟩ : ListResult)]).foldl
          (collectStep [("temperature_at_screen_level", "desc")] "s3" "bucket" none)
          []) := by
  have hr : parsedEntry [("temperature_at_screen_level", "desc")] "s3" "bucket" none
      ⟨"global-deterministic-10km/20250614T0000Z/20250614T0100Z-PT0001H00M-temperature_at_screen_level.nc",
       "t2"⟩
      = some ("20250614T0000Z-20250614T0100Z", "temperature_at_screen_level",
        ⟨"s3://bucket/global-deterministic-10km/20250614T0000Z/20250614T0100Z-PT0001H00M-temperature_at_screen_level.nc",
         "temperature_at_screen_level", "t2", none, "desc",
         "temperature at screen level", ["data"], "application/netcdf"⟩) := rfl
  have hmain := c7_last_write_wins
    [("temperature_at_screen_level", "desc")] "s3" "bucket" none
    [(⟨"global-deterministic-10km/20250614T0000Z/20250614T0100Z-PT0001H00M-temperature_at_screen_level.nc",
       "t1"⟩ : ListResult)] _ _ _ _ hr
  exact ⟨_, _, _, hr, rfl, hmain.1, hmain.2⟩

/-- C9: round-trip of the href string.  A successfully parsed `Href` stores
the original path verbatim in its `href` field and `__str__` returns it
unchanged; and the asset href recorded by `_collect_assets` is exactly
`protocol://bucket/` followed by the original listed path, with no lossy
transformation of the path string. -/
theorem c9_href_round_trip (m? : Option Model) (t? : Option Theme)
    (p : String) (h : Href) (hp : Href.parse m? t? p = Except.ok h)
    (varTable : List (String × String)) (protocol bucket : String)
    (validTime? : Option String) (r : ListResult)
    (i v : String) (a : StacAsset)
    (he : parsedEntry varTable protocol bucket validTime? r = some (i, v, a)) :
    (h.href = p ∧ Href.toString h = p) ∧
    a.href = protocol ++ "://" ++ bucket ++ "/" ++ r.path := by
  constructor
  · have hh : h.href = p := by
      unfold Href.parse at hp
      split at hp
      · simp at hp
      · unfold parseCaps at hp
        split at hp
        · simp at hp
        · split at hp
          · simp at hp
          · cases hp
            rfl
    exact ⟨hh, hh⟩
  · unfold parsedEntry at he
    split at he
    · simp at he
    · split at he
      · simp at he
      · split at he
        · simp at he
        · simp only [Option.some.injEq, Prod.mk.injEq] at he
          obtain ⟨-, -, ha⟩ := he
          subst ha
          rfl

/-- C9 (witness): `c9_href_round_trip` applied to a concrete key and a
concrete listing entry. -/
theorem c9_witness :
    ∃ (h : Href) (a : StacAsset),
      Href.parse none none
        "s3://met-office-atmospheric-model-data/global-deterministic-10km/20250614T0000Z/20250614T0100Z-PT0001H00M-temperature_at_screen_level.nc"
        = Except.ok h ∧
      parsedEntry [("temperature_at_screen_level", "desc")] "s3" "bucket" none
        ⟨"global-deterministic-10km/20250614T0000Z/20250614T0100Z-PT0001H00M-temperature_at_screen_level.nc",
         "t1"⟩
        = some ("20250614T0000Z-20250614T0100Z", "temperature_at_screen_level", a) ∧
      ((h.href
          = "s3://met-office-atmospheric-model-data/global-deterministic-10km/20250614T0000Z/20250614T0100Z-PT0001H00M-temperature_at_screen_level.nc"
        ∧ Href.toString h
          = "s3://met-office-atmospheric-model-data/global-deterministic-10km/20250614T0000Z/20250614T0100Z-PT0001H00M-temperature_at_screen_level.nc") ∧
       a.href = "s3" ++ "://" ++ "bucket" ++ "/"
          ++ "global-deterministic-10km/20250614T0000Z/20250614T0100Z-PT0001H00M-temperature_at_screen_level.nc") := by
  have hp : Href.parse none none
      "s3://met-office-atmospheric-model-data/global-deterministic-10km/20250614T0000Z/20250614T0100Z-PT0001H00M-temperature_at_screen_level.nc"
      = Except.ok
        ⟨"s3://met-office-atmospheric-model-data/global-deterministic-10km/20250614T0000Z/20250614T0100Z-PT0001H00M-temperature_at_screen_level.nc",
         Model.global_, Theme.near_surface, "temperature_at_screen_level",
         "20250614T0000Z", "20250614T0100Z", "PT0001H00M"⟩ := rfl
  have he : parsedEntry [("temperature_at_screen_level", "desc")] "s3" "bucket" none
      ⟨"global-deterministic-10km/20250614T0000Z/20250614T0100Z-PT0001H00M-temperature_at_screen_level.nc",
       "t1"⟩
      = some ("20250614T0000Z-20250614T0100Z", "temperature_at_screen_level",
        ⟨"s3://bucket/global-deterministic-10km/20250614T0000Z/20250614T0100Z-PT0001H00M-temperature_at_screen_level.nc",
         "temperature_at_screen_level", "t1", none, "desc",
         "temperature at screen level", ["data"], "application/netcdf"⟩) := rfl
  exact ⟨_, _, hp, he,
    c9_href_round_trip none none _ _ hp _ _ _ _ _ _ _ _ he⟩

/-- C10: the `duration` accessor is not total on parsed `Href`s.  First, a
structurally valid key whose parameter is `foo-bar` (one hyphen, second
part not beginning with `PT`) parses successfully when a theme hint is
given, and its `duration` accessor hits the failing assertion
(`assert parts[1].startswith("PT")`), modelled as the outer `none`.
Second, for every `Href` whose parameter splits on `-` into three or more
parts, `duration` returns `None` (the inner `none`) even when the final
part is a `PT...` token. -/
theorem c10_duration_partiality :
    ((Href.parse none (some Theme.near_surface)
        "x/global-deterministic-10km/20250614T0000Z/a-b-foo-bar.nc").map
        (fun h => (h.parameter, Href.duration h))
      = Except.ok ("foo-bar", none)) ∧
    ∀ h : Href, 3 ≤ (splitOnDash h.parameter.data).length →
      Href.duration h = some none := by
  constructor
  · rfl
  · intro h hlen
    unfold Href.duration
    rcases hsp : splitOnDash h.parameter.data with - | ⟨a, - | ⟨b, - | ⟨c, rest⟩⟩⟩
    · rfl
    · rfl
    · rw [hsp] at hlen
      simp at hlen
    · rfl

/-- C10 (witness): `c10_duration_partiality` applied to an `Href` whose
parameter `a-b-PT01H` has two hyphens and ends in a `PT` duration token,
on which `duration` still returns `None`. -/
theorem c10_witness :
    Href.duration
      ⟨"", Model.global_, Theme.near_surface, "a-b-PT01H", "", "", ""⟩
      = some none :=
  c10_duration_partiality.2 _ (by decide)
